import Mathlib

/-
Verification of the PMC open-access media-extraction pipeline.

The development shallowly embeds the two relevant modules:
  - parse_oa.py   : get_img_url, get_direct_image_url, parse_xml, get_volume_info
  - fetch_oa.py   : provide_extraction_dir and the top-level sequencing of main

Python strings are modelled as Lean String values; the handful of Python
string methods the code uses (startswith, strip with a character set,
split, rsplit with maxsplit 1, single-character replace) are defined below
over the underlying character lists.  Network and file-system state are
passed explicitly as functions; a Python exception that a try/except block
catches is modelled by the value the except branch lets the function
return.
-/

/-- Python f-string rendering of a possibly absent attribute value: in an
f-string, Python renders None as the four characters None. -/
def pyRender : Option String → String
  | none => "None"
  | some s => s

/-- Core of Python startswith over character lists: true when the second
list is an initial segment of the first. -/
def startswithL : List Char → List Char → Bool
  | _, [] => true
  | [], _ :: _ => false
  | c :: s, p :: ps => c == p && startswithL s ps

/-- Python s.startswith(t). -/
def pyStartswith (s t : String) : Bool := startswithL s.data t.data

/-- Python s.endswith(t): the reversed pattern is an initial segment of the
reversed string. -/
def pyEndswith (s t : String) : Bool := startswithL s.data.reverse t.data.reverse

/-- One-sided core of Python strip(chars): drop leading characters drawn
from the character set cs. -/
def stripLeftL (cs : List Char) : List Char → List Char
  | [] => []
  | c :: rest => if cs.contains c then stripLeftL cs rest else c :: rest

/-- Python s.strip(chars): removes leading and trailing characters drawn
from the character SET chars (it does not remove the literal substring). -/
def pyStrip (chars s : String) : String :=
  String.mk ((stripLeftL chars.data ((stripLeftL chars.data s.data).reverse)).reverse)

/-- Python s.split(sep) for a single-character separator, over character
lists; always returns a non-empty list of fields. -/
def splitOnCharL (sep : Char) : List Char → List (List Char)
  | [] => [[]]
  | c :: rest =>
    let r := splitOnCharL sep rest
    if c == sep then [] :: r
    else
      match r with
      | [] => [[c]]
      | h :: t => (c :: h) :: t

/-- Python xml_path.split('/')[-1]: the last field of the slash-split. -/
def lastPathComponent (path : String) : String :=
  String.mk ((splitOnCharL '/' path.data).getLastD [])

/-- Python s.rsplit('.', 1): split once at the last dot; one field when no
dot occurs, two fields otherwise. -/
def pyRsplitDot (s : String) : List String :=
  match s.data.reverse.span (fun c => c != '.') with
  | (_, []) => [s]
  | (afterRev, _ :: beforeRev) =>
      [String.mk beforeRev.reverse, String.mk afterRev.reverse]

/-- Python s.replace with the single-character pattern dot and the
single-character replacement dash. -/
def pyReplaceDotDash (s : String) : String :=
  String.mk (s.data.map (fun c => if c == '.' then '-' else c))

/-- Lines 88-92 of parse_oa.py: the graphic_fixed value computed from the
href.  It is computed by the source but never used in the emitted record. -/
def graphicFixed (graphic : String) : String :=
  match pyRsplitDot graphic with
  | [b, e] => pyReplaceDotDash b ++ "-" ++ e
  | _ => graphic

/-- An img tag of a fetched HTML page: its class list and its optional
src attribute. -/
structure ImgTag where
  classes : List String
  src : Option String
deriving DecidableEq

/-- The observable part of an HTTP response for this code: the status code
and the img tags BeautifulSoup can find in the body. -/
structure HttpResponse where
  status : Nat
  imgs : List ImgTag
deriving DecidableEq

/-- The network, as the extraction code observes it: each page URL either
yields a response or raises (modelled as none). -/
def Network := String → Option HttpResponse

/-- soup.find of the first img tag whose class list contains graphic. -/
def findGraphicImg (imgs : List ImgTag) : Option ImgTag :=
  imgs.find? (fun t => t.classes.contains "graphic")

/-- get_img_url of parse_oa.py: the article figure page URL built from the
PMC ID and the graphic identifier. -/
def get_img_url (PMC_ID : String) (graphic : String) : String :=
  "https://www.ncbi.nlm.nih.gov/pmc/articles/" ++ PMC_ID ++ "/figure/" ++ graphic ++ "/"

/-- get_direct_image_url of parse_oa.py: fetch the page, require status
200, find the first img of class graphic, read its src attribute, and
prepend the five characters https and a colon unless the value already
starts with them.  Every other path returns None. -/
def get_direct_image_url (net : Network) (page_url : String) : Option String :=
  match net page_url with
  | none => none
  | some response =>
    if response.status == 200 then
      match findGraphicImg response.imgs with
      | some img_tag =>
        match img_tag.src with
        | some img_src =>
            if pyStartswith img_src "https:" then some img_src
            else some ("https:" ++ img_src)
        | none => none
      | none => none
    else none

/-- The graphic child of a fig element: it may or may not carry an
xlink:href attribute. -/
structure GraphicTag where
  xlink_href : Option String
deriving DecidableEq

/-- A fig element of the article markup: its id attribute, its optional
graphic child, its optional media child (present in the markup schema but
never inspected by parse_oa.py), and its optional caption text. -/
structure Fig where
  id : Option String
  graphic : Option GraphicTag
  media : Option String
  caption : Option String
deriving DecidableEq

/-- The part of a parsed article document that parse_xml reads: the text of
the first article-id element of pub-id-type doi, when present, and the fig
elements in document order. -/
structure XmlDoc where
  doi : Option String
  figs : List Fig
deriving DecidableEq

/-- The file system of article markup, as parse_xml observes it: a path
either yields a parsed document or reading raises (modelled as none). -/
def FileSystem := String → Option XmlDoc

/-- One emitted record of parse_xml, with the exact field set of the
dictionary appended at lines 101-109 of parse_oa.py. -/
structure MediaDescriptor where
  PMC_ID : String
  media_id : Option String
  caption : String
  media_webpage_url : String
  Image_URL : Option String
  media_name : String
  doi : String
deriving DecidableEq

/-- The fig loop of parse_xml (lines 82-112).  A fig without a graphic
child is skipped by the continue branch.  A graphic child without an
xlink:href attribute raises KeyError, which the enclosing try/except
catches, so the records collected so far are returned and the remaining
figs are not processed. -/
def processFigs (net : Network) (PMC_ID doi : String) : List Fig → List MediaDescriptor
  | [] => []
  | fig :: rest =>
    match fig.graphic with
    | none => processFigs net PMC_ID doi rest
    | some g =>
      match g.xlink_href with
      | none => []
      | some graphic =>
        let _graphic_fixed := graphicFixed graphic
        let media_webpage_url := get_img_url PMC_ID (pyRender fig.id)
        { PMC_ID := PMC_ID
          media_id := fig.id
          caption := fig.caption.getD ""
          media_webpage_url := media_webpage_url
          Image_URL := get_direct_image_url net media_webpage_url
          media_name := PMC_ID ++ "_" ++ pyRender fig.id ++ ".jpg"
          doi := doi } :: processFigs net PMC_ID doi rest

/-- Line 74 of parse_oa.py: PMC_ID = xml_path.split('/')[-1].strip('.xml'). -/
def PMC_ID_of (xml_path : String) : String :=
  pyStrip ".xml" (lastPathComponent xml_path)

/-- parse_xml of parse_oa.py.  A file whose read or parse raises yields the
empty record list through the enclosing try/except. -/
def parse_xml (net : Network) (files : FileSystem) (xml_path : String) :
    List MediaDescriptor :=
  match files xml_path with
  | none => []
  | some doc =>
    let PMC_ID := PMC_ID_of xml_path
    let doi := doc.doi.getD "No DOI found"
    processFigs net PMC_ID doi doc.figs

/-- Line 136 of parse_oa.py: the volume directory name built from the
volume id. -/
def volumeDirName (volume_id : Nat) : String :=
  "PMC00" ++ toString volume_id ++ "xxxxxx"

/-- Line 137 of parse_oa.py: the manifest CSV file name of a volume. -/
def manifestName (volume : String) : String :=
  "oa_comm_xml." ++ volume ++ ".baseline.2024-06-18.filelist.csv"

/-- The manifest store, as get_volume_info observes it: a manifest path
either yields its Article File column or reading raises (modelled as
none). -/
def ManifestStore := String → Option (List String)

/-- The inner article loop of get_volume_info (lines 144-147): parse each
listed markup file and concatenate the records in manifest row order. -/
def parseVolumeArticles (net : Network) (files : FileSystem)
    (dir volume : String) : List String → List MediaDescriptor
  | [] => []
  | row :: rest =>
    parse_xml net files (dir ++ "/" ++ volume ++ "/" ++ row) ++
      parseVolumeArticles net files dir volume rest

/-- The volume loop of get_volume_info (lines 135-147) with its
accumulator.  A manifest whose read raises escapes the loop to the
enclosing try/except, which returns the records collected so far; later
volumes are not processed. -/
def volumesLoop (net : Network) (files : FileSystem) (manifests : ManifestStore)
    (dir : String) : List Nat → List MediaDescriptor → List MediaDescriptor
  | [], info => info
  | volume_id :: rest, info =>
    let volume := volumeDirName volume_id
    let file_path := dir ++ "/" ++ volume ++ "/" ++ manifestName volume
    match manifests file_path with
    | none => info
    | some rows =>
        volumesLoop net files manifests dir rest
          (info ++ parseVolumeArticles net files dir volume rows)

/-- get_volume_info of parse_oa.py. -/
def get_volume_info (net : Network) (files : FileSystem) (manifests : ManifestStore)
    (volumes : List Nat) (extraction_dir : String) : List MediaDescriptor :=
  volumesLoop net files manifests extraction_dir volumes []

/-- The extraction directory as fetch_oa.py observes it: absent, or
existing with a listing of its entries. -/
inductive DirState where
  | absent : DirState
  | existing : List String → DirState
deriving DecidableEq

/-- The message of the exception raised at lines 53-54 of fetch_oa.py. -/
def conflictMessage (dirPath : String) : String :=
  "The extraction directory " ++ dirPath ++ " is not empty. " ++
    "Please pass -d to confirm deletion of its contents, or --keep-archives to preserve them."

/-- provide_extraction_dir of fetch_oa.py: create the directory when
absent; when it exists non-empty, keep its contents under the
keep-archives flag, empty it under the delete flag, and raise otherwise.
The returned state is the directory state after the call. -/
def provide_extraction_dir (dirPath : String) (state : DirState)
    (keep_archives delete_extraction_dir : Bool) : Except String DirState :=
  match state with
  | DirState.absent => Except.ok (DirState.existing [])
  | DirState.existing contents =>
    if contents.length > 0 then
      if keep_archives then Except.ok (DirState.existing contents)
      else if delete_extraction_dir then Except.ok (DirState.existing [])
      else Except.error (conflictMessage dirPath)
    else Except.ok (DirState.existing contents)

/-- The top-level sequencing of fetch_oa.py main: provide_extraction_dir
runs first, and an exception it raises aborts the run before
download_archive performs any volume download.  On success the result
carries the directory state and the volume directories for which download
work is then attempted. -/
def fetch_oa_main (dirPath : String) (state : DirState)
    (keep_archives delete_extraction_dir : Bool) (volumes : List Nat) :
    Except String (DirState × List String) :=
  match provide_extraction_dir dirPath state keep_archives delete_extraction_dir with
  | Except.error e => Except.error e
  | Except.ok d => Except.ok (d, volumes.map volumeDirName)

/-
Spec-side definitions.  These follow the specification's words, not the
source, and exist to state refinement claims against the embedded code.
-/

/-- The file-extension allow-list named by the spec. -/
def allowedExtensions : List String := ["jpg", "mov", "dcr", "avi", "mpeg"]

/-- Following the spec's words, the file extension derived from a
reference: its trailing suffix after the last dot, when one exists. -/
def derivedExtension (href : String) : Option String :=
  match pyRsplitDot href with
  | [_, e] => some e
  | _ => none

/-- Following the spec's words, removal of exactly the trailing four
characters dot x m l, and nothing else, when the string ends in them. -/
def stripXmlSuffixExact (s : String) : String :=
  if pyEndswith s ".xml" then String.mk (s.data.take (s.data.length - 4)) else s

/-- Following the spec's words, the article identifier: the file's base
name with any leading directory path removed and exactly the trailing
.xml suffix removed. -/
def spec_article_id (path : String) : String :=
  stripXmlSuffixExact (lastPathComponent path)

/-- Forget the Image_URL field of a record, keeping every other field. -/
def eraseImageUrl (d : MediaDescriptor) : MediaDescriptor :=
  { d with Image_URL := none }

/-
Concrete inputs used by witnesses and counterexamples.
-/

/-- A network on which every request raises. -/
def netNone : Network := fun _ => none

/-- A fig element carrying neither a graphic child nor a media child. -/
def figSkip : Fig :=
  { id := some "f1", graphic := none, media := none, caption := some "orphan figure" }

/-- A well-formed fig element with a graphic child. -/
def figImg : Fig :=
  { id := some "f2", graphic := some { xlink_href := some "pone.0001.g001.jpg" },
    media := none, caption := some "an image" }

/-- An article document holding the orphan fig followed by the image fig. -/
def docOrphan : XmlDoc := { doi := some "10.1000/demo", figs := [figSkip, figImg] }

/-- A file system holding only the article PMC11.xml with the orphan
document. -/
def filesOrphan : FileSystem :=
  fun p => if p == "PMC11.xml" then some docOrphan else none

/-- A fig element with a graphic child, inside a document with no DOI. -/
def figPlain : Fig :=
  { id := some "g1", graphic := some { xlink_href := some "img.g001.jpg" },
    media := none, caption := none }

/-- An article document with no article-id element of pub-id-type doi. -/
def docNoDoi : XmlDoc := { doi := none, figs := [figPlain] }

/-- A file system holding only the article PMC22.xml with the no-DOI
document. -/
def filesNoDoi : FileSystem :=
  fun p => if p == "PMC22.xml" then some docNoDoi else none

/-- A network on which every page yields a 200 response with a graphic
img whose src is scheme-relative. -/
def netRel : Network :=
  fun _ => some { status := 200,
                  imgs := [{ classes := ["graphic"], src := some "//cdn.example.org/img.jpg" }] }

/-- A fig element whose graphic href carries the extension xyz, outside
the allow-list. -/
def figXyz : Fig :=
  { id := some "f9", graphic := some { xlink_href := some "movie.xyz" },
    media := none, caption := none }

/-- An article document holding only the xyz-extension fig. -/
def docXyz : XmlDoc := { doi := none, figs := [figXyz] }

/-- A file system holding only the article PMC33.xml with the
xyz-extension document. -/
def filesXyz : FileSystem :=
  fun p => if p == "PMC33.xml" then some docXyz else none

/-- A file system holding one article of volume PMC000xxxxxx under the
root directory root. -/
def filesVol : FileSystem :=
  fun p => if p == "root/PMC000xxxxxx/PMC44.xml" then some docNoDoi else none

/-- A manifest store holding the manifest of volume PMC000xxxxxx only;
reading the manifest of any other volume raises. -/
def manifestsVol : ManifestStore :=
  fun p =>
    if p == "root/PMC000xxxxxx/" ++ manifestName "PMC000xxxxxx" then some ["PMC44.xml"]
    else none

/-- A manifest store on which every read raises. -/
def manifestsNone : ManifestStore := fun _ => none

/-- A network serving the page page6 with a graphic img whose src is
scheme-relative but itself embeds an https URL. -/
def netDoubled : Network :=
  fun u =>
    if u == "page6" then
      some { status := 200,
             imgs := [{ classes := ["graphic"], src := some "//https://cdn.example.org/a.jpg" }] }
    else none

/-- A network serving the page page7 with a graphic img whose src is an
ordinary scheme-relative value. -/
def netRelOne : Network :=
  fun u =>
    if u == "page7" then
      some { status := 200,
             imgs := [{ classes := ["graphic"], src := some "//cdn.example.org/b.jpg" }] }
    else none

/-- A network serving the page page8 with a graphic img whose src is an
absolute non-https URL. -/
def netHttp : Network :=
  fun u =>
    if u == "page8" then
      some { status := 200,
             imgs := [{ classes := ["graphic"], src := some "http://cdn.example.org/c.jpg" }] }
    else none

/-- The record parse_xml emits for the article PMC22.xml of filesNoDoi. -/
def descNoDoi : MediaDescriptor :=
  { PMC_ID := "PMC22", media_id := some "g1", caption := "",
    media_webpage_url := get_img_url "PMC22" "g1", Image_URL := none,
    media_name := "PMC22_g1.jpg", doi := "No DOI found" }

/-
Helper lemmas.
-/

/-- Appending strings appends their character lists. -/
lemma string_data_append (s t : String) : (s ++ t).data = s.data ++ t.data := rfl

/-- Every string starts with the empty pattern. -/
lemma startswithL_nil (s : List Char) : startswithL s [] = true := by
  cases s <;> rfl

/-- A shared initial segment cancels on both sides of startswithL. -/
lemma startswithL_append_left (l s p : List Char) :
    startswithL (l ++ s) (l ++ p) = startswithL s p := by
  induction l with
  | nil => rfl
  | cons c l ih => simp [startswithL, ih]

/-- Appending the four characters of .jpg makes any string end in .jpg. -/
lemma pyEndswith_concat_jpg (x : String) : pyEndswith (x ++ ".jpg") ".jpg" = true := by
  show startswithL ((x.data ++ ['.', 'j', 'p', 'g']).reverse) ['g', 'p', 'j', '.'] = true
  rw [List.reverse_append]
  show startswithL (['g', 'p', 'j', '.'] ++ x.data.reverse) (['g', 'p', 'j', '.'] ++ []) = true
  rw [startswithL_append_left]
  exact startswithL_nil _

/-- A string starting with two slashes does not start with the six
characters of the https scheme. -/
lemma not_https_of_slashes (s : List Char) (h : startswithL s ['/', '/'] = true) :
    startswithL s ['h', 't', 't', 'p', 's', ':'] = false := by
  cases s with
  | nil => simp [startswithL] at h
  | cons c rest =>
    simp only [startswithL, Bool.and_eq_true, beq_iff_eq] at h
    obtain ⟨hc, -⟩ := h
    subst hc
    simp [startswithL]

/-- A string starting with the seven characters of an absolute http URL
does not start with the six characters of the https scheme. -/
lemma not_https_of_http (s : List Char)
    (h : startswithL s ['h', 't', 't', 'p', ':', '/', '/'] = true) :
    startswithL s ['h', 't', 't', 'p', 's', ':'] = false := by
  match s with
  | [] => simp [startswithL] at h
  | [_] => simp [startswithL] at h
  | [_, _] => simp [startswithL] at h
  | [_, _, _] => simp [startswithL] at h
  | [_, _, _, _] => simp [startswithL] at h
  | a :: b :: c :: d :: e :: rest =>
    simp only [startswithL, Bool.and_eq_true, beq_iff_eq] at h
    obtain ⟨ha, hb, hc, hd, he, -⟩ := h
    subst ha; subst hb; subst hc; subst hd; subst he
    simp [startswithL]

/-- Prepending a non-empty string changes the string. -/
lemma https_append_ne (s : String) : ("https:" ++ s) ≠ s := by
  intro h
  have hlen : ("https:" ++ s).data.length = s.data.length :=
    congrArg (fun t => t.data.length) h
  rw [string_data_append, List.length_append] at hlen
  have h6 : ("https:" : String).data.length = 6 := rfl
  rw [h6] at hlen
  omega

/-- Every record the fig loop emits carries the PMC id and doi it was
called with, and a media_name assembled from the PMC id, the rendered
media id and the fixed .jpg extension. -/
lemma processFigs_mem (net : Network) (pmc doi : String) (figs : List Fig) :
    ∀ d ∈ processFigs net pmc doi figs,
      d.PMC_ID = pmc ∧ d.doi = doi ∧
        d.media_name = pmc ++ "_" ++ pyRender d.media_id ++ ".jpg" := by
  induction figs with
  | nil => intro d hd; exact absurd hd (List.not_mem_nil d)
  | cons fig rest ih =>
    intro d hd
    cases hg : fig.graphic with
    | none =>
      simp only [processFigs, hg] at hd
      exact ih d hd
    | some g =>
      cases hh : g.xlink_href with
      | none =>
        simp only [processFigs, hg, hh] at hd
        exact absurd hd (List.not_mem_nil d)
      | some href =>
        simp only [processFigs, hg, hh] at hd
        rcases List.mem_cons.mp hd with heq | hmem
        · subst heq
          exact ⟨rfl, rfl, rfl⟩
        · exact ih d hmem

/-- Outside the Image_URL field, the records the fig loop emits do not
depend on the network. -/
lemma processFigs_map_erase (net1 net2 : Network) (pmc doi : String) (figs : List Fig) :
    (processFigs net1 pmc doi figs).map eraseImageUrl =
      (processFigs net2 pmc doi figs).map eraseImageUrl := by
  induction figs with
  | nil => rfl
  | cons fig rest ih =>
    cases hg : fig.graphic with
    | none =>
      simp only [processFigs, hg]
      exact ih
    | some g =>
      cases hh : g.xlink_href with
      | none => simp only [processFigs, hg, hh]
      | some href =>
        simp only [processFigs, hg, hh, List.map_cons]
        rw [ih]
        rfl

/-- When the manifest of a volume is unreadable, the volume loop stops
there and returns whatever the volumes before it accumulated. -/
lemma volumesLoop_manifest_stop (net : Network) (files : FileSystem)
    (manifests : ManifestStore) (dir : String) (v : Nat) (vs2 : List Nat)
    (h : manifests (dir ++ "/" ++ volumeDirName v ++ "/" ++ manifestName (volumeDirName v)) = none) :
    ∀ (vs1 : List Nat) (info : List MediaDescriptor),
      volumesLoop net files manifests dir (vs1 ++ v :: vs2) info =
        volumesLoop net files manifests dir vs1 info := by
  intro vs1
  induction vs1 with
  | nil =>
    intro info
    simp only [List.nil_append, volumesLoop, h]
  | cons w ws ih =>
    intro info
    simp only [List.cons_append, volumesLoop]
    cases hm : manifests (dir ++ "/" ++ volumeDirName w ++ "/" ++ manifestName (volumeDirName w)) with
    | none => rfl
    | some rows => exact ih _

/-
Claim theorems.
-/

/-- C1, counterexample: the claim says a figure with neither a graphic nor
a media child makes parse_xml raise UnsupportedMediaError.  On the
concrete article PMC11.xml, whose first figure has neither child, no
error occurs: the figure is silently skipped, contributes zero records,
and the following figure is still extracted. -/
theorem c1_counterexample :
    figSkip.graphic = none ∧ figSkip.media = none ∧
      parse_xml netNone filesOrphan "PMC11.xml" =
        [{ PMC_ID := "PMC11", media_id := some "f2", caption := "an image",
           media_webpage_url := get_img_url "PMC11" "f2", Image_URL := none,
           media_name := "PMC11_f2.jpg", doi := "10.1000/demo" }] := by
  decide

/-- C1 (amended): a figure element with no graphic child — whether or not
a media child is present — is silently skipped by the continue branch of
the fig loop: it contributes zero records, no error is raised, and the
remaining figures are processed as if it were absent. -/
theorem c1_fig_without_graphic_silently_skipped
    (net : Network) (pmc doi : String) (fig : Fig) (rest : List Fig)
    (hg : fig.graphic = none) :
    processFigs net pmc doi (fig :: rest) = processFigs net pmc doi rest := by
  simp only [processFigs, hg]

/-- C1, witness: the amended statement at the concrete orphan figure. -/
theorem c1_witness :
    figSkip.graphic = none ∧
      processFigs netNone "PMC11" "10.1000/demo" [figSkip] =
        processFigs netNone "PMC11" "10.1000/demo" [] :=
  ⟨rfl, c1_fig_without_graphic_silently_skipped netNone "PMC11" "10.1000/demo" figSkip [] rfl⟩

/-- C2, counterexample: the claim says extraction performs no network
fetch and its output is network-independent.  On the same article file,
two networks — one answering every page, one raising on every page —
yield different record sequences, because parse_xml calls
get_direct_image_url, which performs an HTTP GET, for every image
figure. -/
theorem c2_counterexample :
    parse_xml netRel filesNoDoi "PMC22.xml" ≠ parse_xml netNone filesNoDoi "PMC22.xml" := by
  decide

/-- C2 (amended): extraction resolves the direct image URL over the
network inline, so only the Image_URL field of the output can depend on
the network state: erasing that field makes the output of parse_xml equal
under any two networks over the same markup. -/
theorem c2_only_image_url_depends_on_network
    (net1 net2 : Network) (files : FileSystem) (p : String) :
    (parse_xml net1 files p).map eraseImageUrl =
      (parse_xml net2 files p).map eraseImageUrl := by
  unfold parse_xml
  cases hf : files p with
  | none => rfl
  | some doc => exact processFigs_map_erase net1 net2 _ _ doc.figs

/-- C3, counterexample: the claim says a derived extension outside the
allow-list makes extraction raise UnrecognizedExtensionError instead of
producing a record.  On the concrete article PMC33.xml, whose figure href
carries the extension xyz, extraction produces a record and no error. -/
theorem c3_counterexample :
    derivedExtension "movie.xyz" = some "xyz" ∧
      allowedExtensions.contains "xyz" = false ∧
      parse_xml netNone filesXyz "PMC33.xml" =
        [{ PMC_ID := "PMC33", media_id := some "f9", caption := "",
           media_webpage_url := get_img_url "PMC33" "f9", Image_URL := none,
           media_name := "PMC33_f9.jpg", doi := "No DOI found" }] := by
  decide

/-- C3 (amended): extraction performs no extension check at all.  A figure
whose graphic href derives an extension outside the allow-list still
yields exactly one record, named with the fixed .jpg extension, and
processing continues; no error is raised. -/
theorem c3_unlisted_extension_still_yields_descriptor
    (net : Network) (pmc doi href e : String) (fig : Fig) (rest : List Fig)
    (hg : fig.graphic = some { xlink_href := some href })
    (_hext : derivedExtension href = some e)
    (_hnot : allowedExtensions.contains e = false) :
    processFigs net pmc doi (fig :: rest) =
      { PMC_ID := pmc, media_id := fig.id, caption := fig.caption.getD "",
        media_webpage_url := get_img_url pmc (pyRender fig.id),
        Image_URL := get_direct_image_url net (get_img_url pmc (pyRender fig.id)),
        media_name := pmc ++ "_" ++ pyRender fig.id ++ ".jpg",
        doi := doi } :: processFigs net pmc doi rest := by
  simp only [processFigs, hg]

/-- C3, witness: the amended statement at the concrete xyz-extension
figure. -/
theorem c3_witness :
    figXyz.graphic = some { xlink_href := some "movie.xyz" } ∧
      derivedExtension "movie.xyz" = some "xyz" ∧
      allowedExtensions.contains "xyz" = false ∧
      processFigs netNone "PMC33" "No DOI found" [figXyz] =
        { PMC_ID := "PMC33", media_id := figXyz.id, caption := figXyz.caption.getD "",
          media_webpage_url := get_img_url "PMC33" (pyRender figXyz.id),
          Image_URL := get_direct_image_url netNone (get_img_url "PMC33" (pyRender figXyz.id)),
          media_name := "PMC33" ++ "_" ++ pyRender figXyz.id ++ ".jpg",
          doi := "No DOI found" } :: processFigs netNone "PMC33" "No DOI found" [] :=
  ⟨rfl, by decide, by decide,
    c3_unlisted_extension_still_yields_descriptor netNone "PMC33" "No DOI found" "movie.xyz"
      "xyz" figXyz [] rfl (by decide) (by decide)⟩

/-- C4, counterexample: the claim says a missing volume manifest aborts
the whole run and a partial aggregate is never returned.  With volume 0
readable and the manifest of volume 1 missing, get_volume_info returns
normally with the partial aggregate covering volume 0 only. -/
theorem c4_counterexample :
    manifestsVol ("root/" ++ volumeDirName 1 ++ "/" ++ manifestName (volumeDirName 1)) = none ∧
      get_volume_info netNone filesVol manifestsVol [0, 1] "root" =
        [{ PMC_ID := "PMC44", media_id := some "g1", caption := "",
           media_webpage_url := get_img_url "PMC44" "g1", Image_URL := none,
           media_name := "PMC44_g1.jpg", doi := "No DOI found" }] := by
  decide

/-- C4 (amended): a manifest read failure is caught inside
get_volume_info, which then stops at the failing volume and returns the
partial aggregate collected from the volumes before it; later volumes are
not processed and no error propagates. -/
theorem c4_manifest_failure_returns_partial
    (net : Network) (files : FileSystem) (manifests : ManifestStore) (dir : String)
    (vs1 : List Nat) (v : Nat) (vs2 : List Nat)
    (h : manifests (dir ++ "/" ++ volumeDirName v ++ "/" ++ manifestName (volumeDirName v)) = none) :
    get_volume_info net files manifests (vs1 ++ v :: vs2) dir =
      get_volume_info net files manifests vs1 dir := by
  unfold get_volume_info
  exact volumesLoop_manifest_stop net files manifests dir v vs2 h vs1 []

/-- C4, witness: the amended statement at the concrete two-volume run. -/
theorem c4_witness :
    manifestsVol ("root" ++ "/" ++ volumeDirName 1 ++ "/" ++ manifestName (volumeDirName 1)) = none ∧
      get_volume_info netNone filesVol manifestsVol ([0] ++ 1 :: []) "root" =
        get_volume_info netNone filesVol manifestsVol [0] "root" :=
  ⟨by decide,
    c4_manifest_failure_returns_partial netNone filesVol manifestsVol "root" [0] 1 [] (by decide)⟩

/-- C5: every record parse_xml produces has media_name equal to the PMC id
followed by an underscore, the rendered media id, and the fixed .jpg
extension — so it ends in .jpg regardless of the extension of the
original href reference. -/
theorem c5_image_descriptor_file_name_is_jpg
    (net : Network) (files : FileSystem) (p : String) (d : MediaDescriptor)
    (hd : d ∈ parse_xml net files p) :
    d.media_name = d.PMC_ID ++ "_" ++ pyRender d.media_id ++ ".jpg" ∧
      pyEndswith d.media_name ".jpg" = true := by
  unfold parse_xml at hd
  cases hf : files p with
  | none =>
    rw [hf] at hd
    exact absurd hd (List.not_mem_nil d)
  | some doc =>
    rw [hf] at hd
    obtain ⟨hpmc, -, hname⟩ := processFigs_mem _ _ _ _ d hd
    constructor
    · rw [hname, hpmc]
    · rw [hname]
      exact pyEndswith_concat_jpg _

/-- C5, witness: the statement at a concrete record of PMC22.xml. -/
theorem c5_witness :
    descNoDoi ∈ parse_xml netNone filesNoDoi "PMC22.xml" ∧
      descNoDoi.media_name = descNoDoi.PMC_ID ++ "_" ++ pyRender descNoDoi.media_id ++ ".jpg" ∧
        pyEndswith descNoDoi.media_name ".jpg" = true :=
  ⟨by decide,
    c5_image_descriptor_file_name_is_jpg netNone filesNoDoi "PMC22.xml" descNoDoi (by decide)⟩

/-- C6, counterexample: the claim says the resolved URL of a
scheme-relative src never begins with a doubled https scheme.  On a page
whose marker-image src is scheme-relative but itself embeds an https URL,
the resolver returns a URL beginning with exactly that doubled scheme. -/
theorem c6_counterexample :
    pyStartswith "//https://cdn.example.org/a.jpg" "//" = true ∧
      get_direct_image_url netDoubled "page6" = some "https://https://cdn.example.org/a.jpg" ∧
      pyStartswith "https://https://cdn.example.org/a.jpg" "https://https://" = true := by
  decide

/-- C6 (amended): for a scheme-relative marker-image src the resolver
returns the src prefixed with the https scheme, so the result begins with
https and two slashes; the result begins with a doubled https scheme
exactly when the src itself begins with two slashes followed by an https
URL; and a src already carrying the https scheme is never prefixed (it is
returned unmodified, as the true branch of the source shows). -/
theorem c6_scheme_relative_src_gets_https
    (net : Network) (url src : String) (response : HttpResponse) (tag : ImgTag)
    (hn : net url = some response) (hs : response.status = 200)
    (hf : findGraphicImg response.imgs = some tag) (hsrc : tag.src = some src)
    (hrel : pyStartswith src "//" = true) :
    get_direct_image_url net url = some ("https:" ++ src) ∧
      pyStartswith ("https:" ++ src) "https://" = true ∧
      pyStartswith ("https:" ++ src) "https://https://" = pyStartswith src "//https://" := by
  have hns : pyStartswith src "https:" = false := not_https_of_slashes src.data hrel
  refine ⟨?_, ?_, ?_⟩
  · unfold get_direct_image_url
    rw [hn]
    simp [hs, hf, hsrc, hns]
  · show startswithL ("https:".data ++ src.data) ("https:".data ++ ['/', '/']) = true
    rw [startswithL_append_left]
    exact hrel
  · show startswithL ("https:".data ++ src.data) ("https:".data ++ "//https://".data) =
      startswithL src.data "//https://".data
    exact startswithL_append_left _ _ _

/-- C6, witness: the amended statement at a concrete scheme-relative
src. -/
theorem c6_witness :
    netRelOne "page7" =
        some { status := 200,
               imgs := [{ classes := ["graphic"], src := some "//cdn.example.org/b.jpg" }] } ∧
      pyStartswith "//cdn.example.org/b.jpg" "//" = true ∧
      get_direct_image_url netRelOne "page7" = some ("https:" ++ "//cdn.example.org/b.jpg") ∧
        pyStartswith ("https:" ++ "//cdn.example.org/b.jpg") "https://" = true ∧
        pyStartswith ("https:" ++ "//cdn.example.org/b.jpg") "https://https://" =
          pyStartswith "//cdn.example.org/b.jpg" "//https://" :=
  ⟨rfl, by decide,
    c6_scheme_relative_src_gets_https netRelOne "page7" "//cdn.example.org/b.jpg"
      { status := 200, imgs := [{ classes := ["graphic"], src := some "//cdn.example.org/b.jpg" }] }
      { classes := ["graphic"], src := some "//cdn.example.org/b.jpg" }
      rfl rfl (by decide) rfl (by decide)⟩

/-- C7: the source computes the article identifier with Python strip,
which removes a character SET, not the .xml suffix.  On the path
PMC_OA/ml.xml the code yields the empty string where exact suffix removal
yields ml; on a real PMC file name such as PMC123.xml the two agree,
which is why the slip goes unnoticed on the intended corpus. -/
theorem c7_strip_removes_charset_not_suffix :
    PMC_ID_of "PMC_OA/ml.xml" = "" ∧ spec_article_id "PMC_OA/ml.xml" = "ml" ∧
      PMC_ID_of "PMC123.xml" = "PMC123" ∧ spec_article_id "PMC123.xml" = "PMC123" := by
  decide

/-- C8: when the extraction directory exists non-empty and neither the
keep-archives flag nor the delete flag is given, the run fails closed
with the conflict error before any download work is attempted (the error
result of fetch_oa_main carries no download actions); and under the
keep-archives flag the directory contents are returned unchanged whatever
the delete flag says. -/
theorem c8_directory_conflict_fails_closed
    (dirPath : String) (contents : List String) (volumes : List Nat) (del : Bool)
    (hne : contents ≠ []) :
    fetch_oa_main dirPath (DirState.existing contents) false false volumes =
        Except.error (conflictMessage dirPath) ∧
      provide_extraction_dir dirPath (DirState.existing contents) true del =
        Except.ok (DirState.existing contents) := by
  cases contents with
  | nil => exact absurd rfl hne
  | cons a l =>
    constructor
    · unfold fetch_oa_main provide_extraction_dir
      simp
    · unfold provide_extraction_dir
      simp

/-- C8, witness: the statement at a concrete non-empty directory. -/
theorem c8_witness :
    (["archive0"] : List String) ≠ [] ∧
      fetch_oa_main "PMC_OA" (DirState.existing ["archive0"]) false false [0] =
          Except.error (conflictMessage "PMC_OA") ∧
        provide_extraction_dir "PMC_OA" (DirState.existing ["archive0"]) true false =
          Except.ok (DirState.existing ["archive0"]) :=
  ⟨by decide, c8_directory_conflict_fails_closed "PMC_OA" ["archive0"] [0] false (by decide)⟩

/-- C9: when the markup of an article carries no article-id element of
pub-id-type doi, every record parse_xml emits for it still carries the
doi field, holding the literal sentinel. -/
theorem c9_missing_doi_yields_sentinel
    (net : Network) (files : FileSystem) (p : String) (doc : XmlDoc) (d : MediaDescriptor)
    (hf : files p = some doc) (hdoi : doc.doi = none) (hd : d ∈ parse_xml net files p) :
    d.doi = "No DOI found" := by
  unfold parse_xml at hd
  rw [hf] at hd
  obtain ⟨-, hdval, -⟩ := processFigs_mem _ _ _ _ d hd
  rw [hdval, hdoi]
  rfl

/-- C9, witness: the statement at the concrete DOI-less article. -/
theorem c9_witness :
    filesNoDoi "PMC22.xml" = some docNoDoi ∧ docNoDoi.doi = none ∧
      descNoDoi ∈ parse_xml netNone filesNoDoi "PMC22.xml" ∧ descNoDoi.doi = "No DOI found" :=
  ⟨by decide, rfl, by decide,
    c9_missing_doi_yields_sentinel netNone filesNoDoi "PMC22.xml" docNoDoi descNoDoi rfl rfl
      (by decide)⟩

/-- C10: a marker-image src beginning with the absolute http scheme gets
the https scheme prepended, producing a malformed double-scheme URL; and
the resolver returns the src unmodified exactly when it already begins
with the https scheme. -/
theorem c10_http_src_double_schemed
    (net : Network) (url src : String) (response : HttpResponse) (tag : ImgTag)
    (hn : net url = some response) (hs : response.status = 200)
    (hf : findGraphicImg response.imgs = some tag) (hsrc : tag.src = some src) :
    (pyStartswith src "http://" = true →
        get_direct_image_url net url = some ("https:" ++ src)) ∧
      (get_direct_image_url net url = some src ↔ pyStartswith src "https:" = true) := by
  have hval : get_direct_image_url net url =
      if pyStartswith src "https:" then some src else some ("https:" ++ src) := by
    unfold get_direct_image_url
    rw [hn]
    simp [hs, hf, hsrc]
  constructor
  · intro hhttp
    have hns : pyStartswith src "https:" = false := not_https_of_http src.data hhttp
    rw [hval, hns]
    simp
  · rw [hval]
    cases hb : pyStartswith src "https:" with
    | false => simp [https_append_ne src]
    | true => simp

/-- C10, witness: the statement at a concrete absolute http src. -/
theorem c10_witness :
    netHttp "page8" =
        some { status := 200,
               imgs := [{ classes := ["graphic"], src := some "http://cdn.example.org/c.jpg" }] } ∧
      pyStartswith "http://cdn.example.org/c.jpg" "http://" = true ∧
      (pyStartswith "http://cdn.example.org/c.jpg" "http://" = true →
          get_direct_image_url netHttp "page8" =
            some ("https:" ++ "http://cdn.example.org/c.jpg")) ∧
        (get_direct_image_url netHttp "page8" = some "http://cdn.example.org/c.jpg" ↔
          pyStartswith "http://cdn.example.org/c.jpg" "https:" = true) :=
  ⟨rfl, by decide,
    c10_http_src_double_schemed netHttp "page8" "http://cdn.example.org/c.jpg"
      { status := 200, imgs := [{ classes := ["graphic"], src := some "http://cdn.example.org/c.jpg" }] }
      { classes := ["graphic"], src := some "http://cdn.example.org/c.jpg" }
      rfl rfl (by decide) rfl⟩
